import Mathlib

/-!
Verification of the Taskmaster task-prioritisation and notification core.

The definitions below are a shallow embedding of the TypeScript source:
`src/src/utils/smartSort.ts` (scoring, consistency, time health, memoised
ranked selectors) and the notification scheduling module
(`scheduleTaskNotifications` / `cancelTaskNotifications`).  Real-number
arithmetic of the source is modelled over the rationals; epoch-millisecond
timestamps are modelled as integers.
-/

namespace Taskmaster

/-- Task priority, from `types.ts`. -/
inductive Priority
  | LOW
  | MEDIUM
  | HIGH
deriving DecidableEq, Repr

/-- Task status, from `types.ts`. -/
inductive TaskStatus
  | PENDING
  | COMPLETED
deriving DecidableEq, Repr

/-- Subtask record, from `types.ts`. -/
structure Subtask where
  id : String
  title : String
  isCompleted : Bool
deriving DecidableEq, Repr

/-- Task record, from `types.ts`.  `deadline`, `createdAt` and
`completedAt` are epoch milliseconds; `completedAt` is optional. -/
structure Task where
  id : String
  title : String
  description : String
  priority : Priority
  deadline : Int
  status : TaskStatus
  createdAt : Int
  tags : List String
  subtasks : List Subtask
  completedAt : Option Int
deriving DecidableEq, Repr

/-- Constant `PRIORITY_WEIGHTS` from `smartSort.ts`. -/
def PRIORITY_WEIGHTS : Priority → ℚ
  | .HIGH => 100
  | .MEDIUM => 50
  | .LOW => 10

/-- Constant `URGENCY_MULTIPLIER` from `smartSort.ts`. -/
def URGENCY_MULTIPLIER : ℚ := 50

/-- Constant `MS_PER_HOUR` from `smartSort.ts`: 1000 * 60 * 60. -/
def MS_PER_HOUR : ℚ := 1000 * 60 * 60

/-- Function `computeScore` from `smartSort.ts`.  Completed tasks score 0;
otherwise priority weight plus `(1 / hoursRemaining) * 50`, where
`hoursRemaining` is floored at 0.01 when the deadline is not in the
future. -/
def computeScore (task : Task) (now : Int) : ℚ :=
  if task.status = .COMPLETED then 0
  else
    let priorityWeight := PRIORITY_WEIGHTS task.priority
    let msRemaining : ℚ := (task.deadline : ℚ) - (now : ℚ)
    let hoursRemaining : ℚ := if 0 < msRemaining then msRemaining / MS_PER_HOUR else 1 / 100
    let urgencyWeight := (1 / hoursRemaining) * URGENCY_MULTIPLIER
    priorityWeight + urgencyWeight

/-- The on-time filter predicate of `computeConsistencyScore`:
`status === COMPLETED && completedAt != null && completedAt <= deadline`. -/
def isOnTime (t : Task) : Bool :=
  t.status == .COMPLETED &&
    (match t.completedAt with
     | some c => decide (c ≤ t.deadline)
     | none => false)

/-- The late filter predicate of `computeConsistencyScore`:
`status === COMPLETED && (completedAt == null || completedAt > deadline)`. -/
def isLate (t : Task) : Bool :=
  t.status == .COMPLETED &&
    (match t.completedAt with
     | some c => decide (t.deadline < c)
     | none => true)

/-- The overdue filter predicate of `computeConsistencyScore`:
`status === PENDING && deadline < now`. -/
def isOverdue (now : Int) (t : Task) : Bool :=
  t.status == .PENDING && decide (t.deadline < now)

/-- Function `computeConsistencyScore` from `smartSort.ts`:
`round(onTime / (onTime + late + overdue) * 100)`, and 0 when the
denominator is 0. -/
def computeConsistencyScore (tasks : List Task) (now : Int) : ℤ :=
  let onTime := (tasks.filter isOnTime).length
  let late := (tasks.filter isLate).length
  let overdue := (tasks.filter (isOverdue now)).length
  let total := onTime + late + overdue
  if total = 0 then 0
  else round (((onTime : ℚ) / (total : ℚ)) * 100)

/-- Function `computeTimeHealth` from `smartSort.ts`.  Completed: 100 when
completed on or before the deadline, else 0.  Pending: 0 on a degenerate
span, else `round(max(0, min(100, remaining / total * 100)))`. -/
def computeTimeHealth (task : Task) (now : Int) : ℤ :=
  if task.status = .COMPLETED then
    match task.completedAt with
    | some c => if c ≤ task.deadline then 100 else 0
    | none => 0
  else
    let total : Int := task.deadline - task.createdAt
    if total ≤ 0 then 0
    else
      let remaining : ℚ := (task.deadline : ℚ) - (now : ℚ)
      round (max 0 (min 100 (remaining / (total : ℚ) * 100)))

/-- Record `ScoredTask` from `types.ts`: a task together with its derived score. -/
structure ScoredTask where
  task : Task
  score : ℚ
deriving DecidableEq, Repr

/-- The annotation step of `selectSmartSortedTasks`:
`{ ...task, score: computeScore(task, now) }`. -/
def annotate (now : Int) (t : Task) : ScoredTask :=
  ⟨t, computeScore t now⟩

/-- Stable insertion into a descending-by-score list: the new element
passes every element of strictly larger score and stops in front of the
first element whose score is not larger.  This realises the stable
descending sort that `Array.prototype.sort` (stable per ES2019) performs
with the comparator `(a, b) => b.score - a.score`. -/
def insertDesc (a : ScoredTask) : List ScoredTask → List ScoredTask
  | [] => [a]
  | b :: l => if a.score < b.score then b :: insertDesc a l else a :: b :: l

/-- Stable descending-by-score sort (insertion sort), modelling the
`.sort((a, b) => b.score - a.score)` call of `selectSmartSortedTasks`. -/
def sortDesc : List ScoredTask → List ScoredTask
  | [] => []
  | a :: l => insertDesc a (sortDesc l)

/-- The recomputation body of `selectSmartSortedTasks` from
`smartSort.ts`: annotate every task with its score at a single shared
`now`, then sort descending by score (stable). -/
def selectSmartSortedTasks (tasks : List Task) (now : Int) : List ScoredTask :=
  sortDesc (tasks.map (annotate now))

/-- Selector `selectPendingTasks` from `smartSort.ts`: the PENDING-only sublist of
the ranked list, order preserved. -/
def selectPendingTasks (tasks : List Task) (now : Int) : List ScoredTask :=
  (selectSmartSortedTasks tasks now).filter (fun st => st.task.status == .PENDING)

/-- Selector `selectCompletedTasks` from `smartSort.ts`: the COMPLETED-only
sublist of the ranked list, order preserved. -/
def selectCompletedTasks (tasks : List Task) (now : Int) : List ScoredTask :=
  (selectSmartSortedTasks tasks now).filter (fun st => st.task.status == .COMPLETED)

/-- Cache cell of the reselect memoisation: the identity token of the
last-seen task collection reference and the result computed for it. -/
structure SelectorCache where
  ref : Nat
  value : List ScoredTask
deriving DecidableEq, Repr

/-- One invocation of the memoised `selectSmartSortedTasks` selector
(`createSelector` with default reference-equality input comparison).
`ref` is the identity token of the task-collection reference held by the
store, `clock` is the ambient `Date.now()` reading at invocation time
(read inside the recomputation body, not passed by the caller).  Returns
the delivered list, the new cache, and whether a recomputation ran. -/
def runSmartSortedSelector (cache : Option SelectorCache) (ref : Nat)
    (tasks : List Task) (clock : Int) : List ScoredTask × SelectorCache × Bool :=
  match cache with
  | some c =>
    if c.ref = ref then (c.value, c, false)
    else
      let v := selectSmartSortedTasks tasks clock
      (v, ⟨ref, v⟩, true)
  | none =>
    let v := selectSmartSortedTasks tasks clock
    (v, ⟨ref, v⟩, true)

/-- Constant `ONE_HOUR_MS` from the notification module: 60 * 60 * 1000. -/
def ONE_HOUR_MS : Int := 60 * 60 * 1000

/-- Constant `REMINDER_SUFFIX` from the notification module. -/
def REMINDER_SUFFIX : String := "-reminder"

/-- Constant `DEADLINE_SUFFIX` from the notification module. -/
def DEADLINE_SUFFIX : String := "-deadline"

/-- A trigger-notification delivery request as submitted to the delivery
service: deterministic id, absolute fire instant, and whether the
trigger carries the `alarmManager.allowWhileIdle` flag (best-effort
firing while the device is in a low-power suspended state). -/
structure NotificationRequest where
  id : String
  timestamp : Int
  allowWhileIdle : Bool
deriving DecidableEq, Repr

/-- The permission settings returned by `notifee.requestPermission()`;
only `authorizationStatus` is inspected by the scheduler.  `none` models
a missing settings object. -/
structure PermissionSettings where
  authorizationStatus : Int
deriving DecidableEq, Repr

/-- The guard of `scheduleTaskNotifications`:
`!settings || settings.authorizationStatus < 1` means not granted. -/
def permissionGranted (settings : Option PermissionSettings) : Bool :=
  match settings with
  | none => false
  | some s => decide (1 ≤ s.authorizationStatus)

/-- Function `scheduleTaskNotifications` from the notification module, modelled
as the list of delivery requests it submits.  If permission is not
granted the call is a no-op.  Otherwise the reminder request
(`deadline - 1h`, no idle flag) and the deadline request (`deadline`,
idle flag set) are each submitted exactly when their fire instant is
strictly in the future. -/
def scheduleTaskNotifications (task : Task) (settings : Option PermissionSettings)
    (now : Int) : List NotificationRequest :=
  if permissionGranted settings then
    let reminderTime := task.deadline - ONE_HOUR_MS
    let deadlineTime := task.deadline
    (if now < reminderTime then
      [⟨task.id ++ REMINDER_SUFFIX, reminderTime, false⟩] else []) ++
    (if now < deadlineTime then
      [⟨task.id ++ DEADLINE_SUFFIX, deadlineTime, true⟩] else [])
  else []

/-- Function `cancelTaskNotifications` from the notification module, modelled as
the list of trigger-notification ids whose cancellation it requests,
unconditionally. -/
def cancelTaskNotifications (taskId : String) : List String :=
  [taskId ++ REMINDER_SUFFIX, taskId ++ DEADLINE_SUFFIX]

/-- Modelled from the spec: the delivery-service state (the set of
pending trigger ids) and the effect of `cancelTriggerNotification` calls
on it.  The service itself is external to the repository; per the spec,
cancelling an already-fired or already-absent id is a no-op, never an
error, so applying a batch of cancellations is total on every state. -/
def applyCancellations (existing : List String) (ids : List String) : List String :=
  existing.filter (fun e => !(ids.contains e))

/-- Helper building a task record with default title, description, tags
and subtasks, used for concrete test inputs. -/
def mkTask (id : String) (p : Priority) (d : Int) (s : TaskStatus)
    (ca : Int) (co : Option Int) : Task :=
  ⟨id, id, id, p, d, s, ca, [], [], co⟩

/-- Concrete input: a LOW-priority pending task whose deadline is one
hour in the past (at `now = 0`). -/
def lowOverdueTask : Task := mkTask ("low-overdue") .LOW (-3600000) .PENDING (-7200000) none

/-- Concrete input: a HIGH-priority pending task due in three hours (at
`now = 0`). -/
def highSoonTask : Task := mkTask ("high-soon") .HIGH 10800000 .PENDING 0 none

/-- Concrete input: a completed task. -/
def completedTask : Task := mkTask ("done") .LOW 1000 .COMPLETED 0 (some 500)

/-- Concrete input A of the stable-sort example: LOW pending, due in
1.25 hours, score 50 at `now = 0`. -/
def taskA : Task := mkTask ("A") .LOW 4500000 .PENDING 0 none

/-- Concrete input B of the stable-sort example: identical deadline and
priority to A, score 50 at `now = 0`. -/
def taskB : Task := mkTask ("B") .LOW 4500000 .PENDING 0 none

/-- Concrete input C of the stable-sort example: LOW pending, due in
0.625 hours, score 90 at `now = 0`. -/
def taskC : Task := mkTask ("C") .LOW 2250000 .PENDING 0 none

/-- Concrete input: a pending task due in 18 seconds (at `now = 0`),
inside the region where the urgency floor causes an inversion. -/
def nearDueTask : Task := mkTask ("near") .LOW 18000 .PENDING 0 none

/-- Concrete input: a pending task one second overdue at `now = 0`. -/
def overdueTask : Task := mkTask ("over") .LOW (-1000) .PENDING (-2000) none

/-- Concrete input: three on-time-completed tasks and one
late-completed task. -/
def fourTasks : List Task :=
  [mkTask ("c1") .LOW 100 .COMPLETED 0 (some 50),
   mkTask ("c2") .LOW 100 .COMPLETED 0 (some 100),
   mkTask ("c3") .LOW 100 .COMPLETED 0 (some 99),
   mkTask ("c4") .LOW 100 .COMPLETED 0 (some 101)]

/-- Concrete input: a task completed exactly at its deadline. -/
def onTimeDoneTask : Task := mkTask ("ot") .LOW 1000 .COMPLETED 0 (some 1000)

/-- Concrete input: a task completed one millisecond after its
deadline. -/
def lateDoneTask : Task := mkTask ("ld") .LOW 1000 .COMPLETED 0 (some 1001)

/-- Concrete input: a pending task queried exactly halfway between its
creation and its deadline (`createdAt = 0`, `deadline = 1000`,
`now = 500`). -/
def halfwayTask : Task := mkTask ("half") .LOW 1000 .PENDING 0 none

/-- Concrete input: a pending task whose score differs at internal clock
readings 0 and 1800000, used to witness the internal `Date.now()`
dependence of the memoised selector. -/
def clockProbeTask : Task := mkTask ("probe") .LOW 3600000 .PENDING 0 none

/-- Concrete input: a pending task whose deadline is already past at
`now = 0`. -/
def pastDeadlineTask : Task := mkTask ("past") .LOW (-5) .PENDING (-10) none

/-- Concrete input with deadline comfortably in the future, for
scheduling both notification timers at `now = 0`. -/
def scheduleDemoTask : Task := mkTask ("t1") .LOW 7200000 .PENDING 0 none

/-- Concrete input for field independence: a pending MEDIUM task. -/
def fieldTaskOne : Task :=
  ⟨"id-one", "first title", "first description", .MEDIUM, 7200000, .PENDING, 0,
   ["work"], [⟨"s1", "sub", true⟩], none⟩

/-- Concrete input for field independence: same priority, deadline and
status as `fieldTaskOne` but different identity, text, tags, subtasks,
creation time and completion stamp. -/
def fieldTaskTwo : Task :=
  ⟨"id-two", "second title", "second description", .MEDIUM, 7200000, .PENDING, 3600,
   ["home", "urgent"], [], some 99⟩

/-! ## Helper lemmas -/

/-- Inserting into a list yields a permutation of consing. -/
theorem insertDesc_perm (a : ScoredTask) (l : List ScoredTask) :
    (insertDesc a l).Perm (a :: l) := by
  induction l with
  | nil => exact List.Perm.refl _
  | cons b l ih =>
    by_cases h : a.score < b.score
    · simpa [insertDesc, h] using (ih.cons b).trans (List.Perm.swap a b l)
    · simp [insertDesc, h]

/-- The stable descending sort permutes its input. -/
theorem sortDesc_perm (l : List ScoredTask) : (sortDesc l).Perm l := by
  induction l with
  | nil => exact List.Perm.refl _
  | cons a l ih => exact (insertDesc_perm a (sortDesc l)).trans (ih.cons a)

/-- Insertion preserves the descending-by-score pairwise order. -/
theorem insertDesc_pairwise (a : ScoredTask) (l : List ScoredTask)
    (h : l.Pairwise (fun x y => y.score ≤ x.score)) :
    (insertDesc a l).Pairwise (fun x y => y.score ≤ x.score) := by
  induction l with
  | nil => simp [insertDesc]
  | cons b l ih =>
    rcases List.pairwise_cons.1 h with ⟨hb, hl⟩
    by_cases hab : a.score < b.score
    · rw [insertDesc, if_pos hab]
      refine List.pairwise_cons.2 ⟨fun x hx => ?_, ih hl⟩
      rcases List.mem_cons.1 ((insertDesc_perm a l).mem_iff.1 hx) with hx | hx
      · rw [hx]
        exact hab.le
      · exact hb x hx
    · rw [insertDesc, if_neg hab]
      refine List.pairwise_cons.2 ⟨fun x hx => ?_, h⟩
      rcases List.mem_cons.1 hx with hx | hx
      · rw [hx]
        exact not_lt.1 hab
      · exact (hb x hx).trans (not_lt.1 hab)

/-- The stable descending sort is descending by score. -/
theorem sortDesc_pairwise (l : List ScoredTask) :
    (sortDesc l).Pairwise (fun x y => y.score ≤ x.score) := by
  induction l with
  | nil => exact List.Pairwise.nil
  | cons a l ih => exact insertDesc_pairwise a (sortDesc l) ih

/-- Stability of insertion: restricted to any single score value, the
inserted element lands in front and the rest keep their order. -/
theorem insertDesc_filter (a : ScoredTask) (l : List ScoredTask) (s : ℚ) :
    (insertDesc a l).filter (fun x => decide (x.score = s)) =
      if a.score = s then a :: l.filter (fun x => decide (x.score = s))
      else l.filter (fun x => decide (x.score = s)) := by
  induction l with
  | nil => by_cases h : a.score = s <;> simp [insertDesc, h]
  | cons b l ih =>
    by_cases hab : a.score < b.score
    · rw [insertDesc, if_pos hab]
      by_cases has : a.score = s
      · have hbs : ¬b.score = s := by
          intro hb
          rw [has] at hab
          rw [hb] at hab
          exact lt_irrefl s hab
        simp [List.filter_cons, hbs, ih, has]
      · simp [List.filter_cons, ih, has]
    · rw [insertDesc, if_neg hab]
      by_cases has : a.score = s <;> simp [List.filter_cons, has]

/-- Stability of the sort: restricted to any single score value, the
sorted list equals the input list. -/
theorem sortDesc_filter (l : List ScoredTask) (s : ℚ) :
    (sortDesc l).filter (fun x => decide (x.score = s)) =
      l.filter (fun x => decide (x.score = s)) := by
  induction l with
  | nil => rfl
  | cons a l ih =>
    rw [sortDesc, insertDesc_filter]
    by_cases has : a.score = s <;> simp [List.filter_cons, has, ih]

/-- Rounding is monotone over the rationals. -/
theorem round_mono_q {x y : ℚ} (h : x ≤ y) : round x ≤ round y := by
  rw [round_eq, round_eq]
  exact Int.floor_le_floor (by linarith)

/-- Rounding a rational in `[0, 100]` lands in `[0, 100]`. -/
theorem round_bounds {x : ℚ} (h0 : 0 ≤ x) (h1 : x ≤ 100) :
    0 ≤ round x ∧ round x ≤ 100 := by
  constructor
  · have := round_mono_q h0
    simpa using this
  · have := round_mono_q h1
    have h100 : round (100 : ℚ) = 100 := by norm_num [round_eq]
    omega

/-- For a non-completed task, `computeScore` takes the priority-plus-
urgency branch. -/
theorem computeScore_of_pending {t : Task} (h : t.status ≠ .COMPLETED) (now : Int) :
    computeScore t now =
      PRIORITY_WEIGHTS t.priority +
        (1 / (if 0 < (t.deadline : ℚ) - (now : ℚ)
              then ((t.deadline : ℚ) - (now : ℚ)) / MS_PER_HOUR
              else 1 / 100)) * 50 := by
  rw [computeScore, if_neg h]
  simp only [URGENCY_MULTIPLIER]

/-- The urgency term is strictly antitone in the remaining time, over
positive remaining times. -/
theorem urgency_strict_anti {r1 r2 : ℚ} (h2 : 0 < r2) (h12 : r2 < r1) :
    1 / (r1 / MS_PER_HOUR) * 50 < 1 / (r2 / MS_PER_HOUR) * 50 := by
  have hH : (0 : ℚ) < MS_PER_HOUR := by norm_num [MS_PER_HOUR]
  rw [one_div_div, one_div_div]
  exact mul_lt_mul_of_pos_right (div_lt_div_of_pos_left hH h2 h12) (by norm_num)

/-- Concrete evaluation: the LOW task one hour overdue scores 5010. -/
theorem score_lowOverdue : computeScore lowOverdueTask 0 = 5010 := by
  rw [computeScore_of_pending (by decide) 0]
  norm_num [lowOverdueTask, mkTask, PRIORITY_WEIGHTS, MS_PER_HOUR]

/-- Concrete evaluation: the HIGH task due in three hours scores 350/3. -/
theorem score_highSoon : computeScore highSoonTask 0 = 350 / 3 := by
  rw [computeScore_of_pending (by decide) 0]
  norm_num [highSoonTask, mkTask, PRIORITY_WEIGHTS, MS_PER_HOUR]

/-- Concrete evaluation: task A scores 50 at time 0. -/
theorem score_taskA : computeScore taskA 0 = 50 := by
  rw [computeScore_of_pending (by decide) 0]
  norm_num [taskA, mkTask, PRIORITY_WEIGHTS, MS_PER_HOUR]

/-- Concrete evaluation: task B scores 50 at time 0. -/
theorem score_taskB : computeScore taskB 0 = 50 := by
  rw [computeScore_of_pending (by decide) 0]
  norm_num [taskB, mkTask, PRIORITY_WEIGHTS, MS_PER_HOUR]

/-- Concrete evaluation: task C scores 90 at time 0. -/
theorem score_taskC : computeScore taskC 0 = 90 := by
  rw [computeScore_of_pending (by decide) 0]
  norm_num [taskC, mkTask, PRIORITY_WEIGHTS, MS_PER_HOUR]

/-- Concrete evaluation: the task due in 18 seconds scores 10010. -/
theorem score_nearDue : computeScore nearDueTask 0 = 10010 := by
  rw [computeScore_of_pending (by decide) 0]
  norm_num [nearDueTask, mkTask, PRIORITY_WEIGHTS, MS_PER_HOUR]

/-- Concrete evaluation: the task one second overdue scores 5010. -/
theorem score_overdue : computeScore overdueTask 0 = 5010 := by
  rw [computeScore_of_pending (by decide) 0]
  norm_num [overdueTask, mkTask, PRIORITY_WEIGHTS, MS_PER_HOUR]

/-- Concrete evaluation: the clock-probe task scores 60 at internal
clock 0. -/
theorem score_probe_early : computeScore clockProbeTask 0 = 60 := by
  rw [computeScore_of_pending (by decide) 0]
  norm_num [clockProbeTask, mkTask, PRIORITY_WEIGHTS, MS_PER_HOUR]

/-- Concrete evaluation: the clock-probe task scores 110 at internal
clock 1800000. -/
theorem score_probe_late : computeScore clockProbeTask 1800000 = 110 := by
  rw [computeScore_of_pending (by decide) 1800000]
  norm_num [clockProbeTask, mkTask, PRIORITY_WEIGHTS, MS_PER_HOUR]

/-! ## Claim theorems -/

/-- C1: `computeScore` returns 0 for COMPLETED tasks and otherwise the
priority weight (HIGH 100, MEDIUM 50, LOW 10) plus `(1 / hoursRemaining)
* 50`, with `hoursRemaining = (deadline - now) / 3600000` when positive
and the floor `0.01` otherwise; a LOW task one hour overdue scores 5010,
strictly above a HIGH task due in three hours (350/3 ≈ 116.7). -/
theorem computeScore_formula (t : Task) (now : Int) :
    (t.status = .COMPLETED → computeScore t now = 0) ∧
    (t.status ≠ .COMPLETED →
      computeScore t now =
        PRIORITY_WEIGHTS t.priority +
          (1 / (if 0 < (t.deadline : ℚ) - (now : ℚ)
                then ((t.deadline : ℚ) - (now : ℚ)) / 3600000
                else 1 / 100)) * 50) ∧
    computeScore lowOverdueTask 0 = 5010 ∧
    computeScore highSoonTask 0 = 350 / 3 ∧
    computeScore highSoonTask 0 < computeScore lowOverdueTask 0 := by
  refine ⟨fun h => by rw [computeScore, if_pos h], fun h => ?_, score_lowOverdue,
    score_highSoon, by rw [score_lowOverdue, score_highSoon]; norm_num⟩
  rw [computeScore_of_pending h now]
  norm_num [MS_PER_HOUR]

/-- Witness for C1: both branches evaluated at concrete tasks. -/
theorem computeScore_formula_witness :
    computeScore completedTask 0 = 0 ∧
    computeScore highSoonTask 0 =
      PRIORITY_WEIGHTS highSoonTask.priority +
        (1 / (if 0 < (highSoonTask.deadline : ℚ) - ((0 : Int) : ℚ)
              then ((highSoonTask.deadline : ℚ) - ((0 : Int) : ℚ)) / 3600000
              else 1 / 100)) * 50 :=
  ⟨(computeScore_formula completedTask 0).1 (by decide),
   (computeScore_formula highSoonTask 0).2.1 (by decide)⟩

/-- C2: the ranked selector returns exactly the input tasks annotated at
a single shared `now`, in stable descending score order (ties keep input
order, witnessed by the filter characterisation and by the concrete
example [A(50), B(50), C(90)] ↦ [C, A, B]); the pending and completed
selectors are the PENDING-only and COMPLETED-only subsequences of that
ordered list. -/
theorem selectSmartSortedTasks_spec (tasks : List Task) (now : Int) :
    (selectSmartSortedTasks tasks now).Perm (tasks.map (annotate now)) ∧
    (selectSmartSortedTasks tasks now).Pairwise (fun x y => y.score ≤ x.score) ∧
    (∀ s : ℚ, (selectSmartSortedTasks tasks now).filter (fun x => decide (x.score = s)) =
        (tasks.map (annotate now)).filter (fun x => decide (x.score = s))) ∧
    selectPendingTasks tasks now =
      (selectSmartSortedTasks tasks now).filter (fun st => st.task.status == .PENDING) ∧
    selectCompletedTasks tasks now =
      (selectSmartSortedTasks tasks now).filter (fun st => st.task.status == .COMPLETED) ∧
    (selectSmartSortedTasks [taskA, taskB, taskC] 0).map (fun st => st.task.id) =
      [taskC.id, taskA.id, taskB.id] := by
  refine ⟨sortDesc_perm _, sortDesc_pairwise _, fun s => sortDesc_filter _ s, rfl, rfl, ?_⟩
  simp only [selectSmartSortedTasks, List.map_cons, List.map_nil, annotate, sortDesc, insertDesc,
    score_taskA, score_taskB, score_taskC]
  norm_num

/-- C3 counterexample: `computeScore` is not strictly decreasing in
`(deadline - now)` for fixed priority and status.  A LOW pending task
due in 18 seconds has strictly larger `(deadline - now)` than a LOW
pending task one second overdue, yet scores strictly MORE (10010 versus
5010), because the overdue branch floors `hoursRemaining` at 0.01. -/
theorem computeScore_monotone_cex :
    nearDueTask.status ≠ .COMPLETED ∧ overdueTask.status ≠ .COMPLETED ∧
    nearDueTask.priority = overdueTask.priority ∧
    overdueTask.deadline - 0 < nearDueTask.deadline - 0 ∧
    computeScore nearDueTask 0 = 10010 ∧ computeScore overdueTask 0 = 5010 ∧
    computeScore overdueTask 0 < computeScore nearDueTask 0 := by
  refine ⟨by decide, by decide, by decide, by decide, score_nearDue, score_overdue, ?_⟩
  rw [score_nearDue, score_overdue]
  norm_num

/-- C3 (amended): for non-completed tasks of equal priority,
`computeScore` is strictly decreasing in `(deadline - now)` on the
region where both remaining times are positive; any two such tasks with
non-positive remaining time score equally (the 0.01-hour floor); and for
equal positive remaining time HIGH scores strictly above MEDIUM, which
scores strictly above LOW. -/
theorem computeScore_monotone (t1 t2 : Task) (now : Int)
    (h1 : t1.status ≠ .COMPLETED) (h2 : t2.status ≠ .COMPLETED) :
    (t1.priority = t2.priority → 0 < t2.deadline - now →
       t2.deadline - now < t1.deadline - now →
       computeScore t1 now < computeScore t2 now) ∧
    (t1.priority = t2.priority → t1.deadline - now ≤ 0 → t2.deadline - now ≤ 0 →
       computeScore t1 now = computeScore t2 now) ∧
    (t1.deadline = t2.deadline → 0 < t1.deadline - now →
       ((t1.priority = .HIGH → t2.priority = .MEDIUM →
           computeScore t2 now < computeScore t1 now) ∧
        (t1.priority = .MEDIUM → t2.priority = .LOW →
           computeScore t2 now < computeScore t1 now))) := by
  rw [computeScore_of_pending h1 now, computeScore_of_pending h2 now]
  refine ⟨fun hp hpos hlt => ?_, fun hp hn1 hn2 => ?_, fun hd hpos => ?_⟩
  · have hr2 : (0 : ℚ) < (t2.deadline : ℚ) - (now : ℚ) := by exact_mod_cast hpos
    have hr12 : (t2.deadline : ℚ) - (now : ℚ) < (t1.deadline : ℚ) - (now : ℚ) := by
      have : (0 : ℚ) < (t1.deadline : ℚ) - (t2.deadline : ℚ) := by
        exact_mod_cast sub_pos.2 (by omega : t2.deadline < t1.deadline)
      linarith
    have hr1 : (0 : ℚ) < (t1.deadline : ℚ) - (now : ℚ) := hr2.trans hr12
    rw [hp, if_pos hr1, if_pos hr2]
    exact add_lt_add_left (urgency_strict_anti hr2 hr12) _
  · have hr1 : ¬(0 : ℚ) < (t1.deadline : ℚ) - (now : ℚ) := by
      rw [not_lt]
      exact_mod_cast sub_nonpos.2 (by omega : t1.deadline ≤ now)
    have hr2 : ¬(0 : ℚ) < (t2.deadline : ℚ) - (now : ℚ) := by
      rw [not_lt]
      exact_mod_cast sub_nonpos.2 (by omega : t2.deadline ≤ now)
    rw [hp, if_neg hr1, if_neg hr2]
  · have hr1 : (0 : ℚ) < (t1.deadline : ℚ) - (now : ℚ) := by
      exact_mod_cast hpos
    have hr2 : (0 : ℚ) < (t2.deadline : ℚ) - (now : ℚ) := by
      rw [← hd]
      exact hr1
    rw [if_pos hr1, if_pos hr2, hd]
    constructor
    · intro hq1 hq2
      rw [hq1, hq2]
      exact add_lt_add_right (by norm_num [PRIORITY_WEIGHTS]) _
    · intro hq1 hq2
      rw [hq1, hq2]
      exact add_lt_add_right (by norm_num [PRIORITY_WEIGHTS]) _

/-- Witness for C3 (amended): the strict-decrease branch applied to two
concrete LOW pending tasks with positive remaining times. -/
theorem computeScore_monotone_witness :
    computeScore taskA 0 < computeScore taskC 0 :=
  (computeScore_monotone taskA taskC 0 (by decide) (by decide)).1 (by decide) (by decide)
    (by decide)

/-- C10: for non-completed tasks, `computeScore` depends only on status,
priority and deadline, so it is invariant under changes to title,
description, tags, subtasks, `createdAt` and `completedAt`. -/
theorem computeScore_field_independent (t1 t2 : Task) (now : Int)
    (_hns : t1.status ≠ .COMPLETED) (hs : t1.status = t2.status)
    (hp : t1.priority = t2.priority) (hd : t1.deadline = t2.deadline) :
    computeScore t1 now = computeScore t2 now := by
  simp only [computeScore, hs, hp, hd]

/-- Witness for C10: two tasks sharing only status, priority and
deadline but differing in id, title, description, tags, subtasks,
creation time and completion stamp receive equal scores. -/
theorem computeScore_field_independent_witness :
    computeScore fieldTaskOne 0 = computeScore fieldTaskTwo 0 :=
  computeScore_field_independent fieldTaskOne fieldTaskTwo 0 (by decide) (by decide)
    (by decide) (by decide)

/-- Unfolded form of `computeConsistencyScore`. -/
theorem computeConsistencyScore_eq (tasks : List Task) (now : Int) :
    computeConsistencyScore tasks now =
      if (tasks.filter isOnTime).length + (tasks.filter isLate).length +
          (tasks.filter (isOverdue now)).length = 0 then 0
      else
        round ((((tasks.filter isOnTime).length : ℚ) /
          (((tasks.filter isOnTime).length + (tasks.filter isLate).length +
            (tasks.filter (isOverdue now)).length : ℕ) : ℚ)) * 100) := by
  rw [computeConsistencyScore]

/-- C4: `computeConsistencyScore` classifies each task into at most one
of on-time-completed, late-completed and overdue-pending, returns 0 when
no task falls in any class (in particular on the empty list), otherwise
`round(onTime / (onTime + late + overdue) * 100)`; the result is always
an integer in [0, 100], and three on-time plus one late completion give
75. -/
theorem computeConsistencyScore_spec (tasks : List Task) (now : Int) :
    (∀ t ∈ tasks,
        ¬(isOnTime t = true ∧ isLate t = true) ∧
        ¬(isOnTime t = true ∧ isOverdue now t = true) ∧
        ¬(isLate t = true ∧ isOverdue now t = true)) ∧
    ((tasks.filter isOnTime).length + (tasks.filter isLate).length +
        (tasks.filter (isOverdue now)).length = 0 →
      computeConsistencyScore tasks now = 0) ∧
    (∀ total : ℕ,
      total = (tasks.filter isOnTime).length + (tasks.filter isLate).length +
        (tasks.filter (isOverdue now)).length → total ≠ 0 →
      computeConsistencyScore tasks now =
        round ((((tasks.filter isOnTime).length : ℚ) / (total : ℚ)) * 100)) ∧
    (0 ≤ computeConsistencyScore tasks now ∧ computeConsistencyScore tasks now ≤ 100) ∧
    computeConsistencyScore ([] : List Task) now = 0 ∧
    computeConsistencyScore fourTasks 0 = 75 := by
  have hempty : computeConsistencyScore ([] : List Task) now = 0 := by
    rw [computeConsistencyScore_eq]
    norm_num
  have hfour : computeConsistencyScore fourTasks 0 = 75 := by
    have h1 : (fourTasks.filter isOnTime).length = 3 := by decide
    have h2 : (fourTasks.filter isLate).length = 1 := by decide
    have h3 : (fourTasks.filter (isOverdue 0)).length = 0 := by decide
    rw [computeConsistencyScore_eq, h1, h2, h3]
    norm_num [round_eq]
  refine ⟨fun t _ => ?_, fun h => ?_, fun total htot hne => ?_, ?_, hempty, hfour⟩
  · rcases t with ⟨id, title, desc, prio, dl, st, ca, tags, subs, co⟩
    cases st <;> cases co <;> simp [isOnTime, isLate, isOverdue]
  · rw [computeConsistencyScore_eq, if_pos h]
  · subst htot
    rw [computeConsistencyScore_eq, if_neg hne]
  · rw [computeConsistencyScore_eq]
    by_cases h : (tasks.filter isOnTime).length + (tasks.filter isLate).length +
        (tasks.filter (isOverdue now)).length = 0
    · rw [if_pos h]
      norm_num
    · rw [if_neg h]
      have hpos : 0 < ((tasks.filter isOnTime).length + (tasks.filter isLate).length +
          (tasks.filter (isOverdue now)).length : ℕ) := Nat.pos_of_ne_zero h
      have hposq : (0 : ℚ) < (((tasks.filter isOnTime).length + (tasks.filter isLate).length +
          (tasks.filter (isOverdue now)).length : ℕ) : ℚ) := by exact_mod_cast hpos
      have hleN : (tasks.filter isOnTime).length ≤
          (tasks.filter isOnTime).length + (tasks.filter isLate).length +
            (tasks.filter (isOverdue now)).length := by omega
      have hle : ((tasks.filter isOnTime).length : ℚ) ≤
          (((tasks.filter isOnTime).length + (tasks.filter isLate).length +
            (tasks.filter (isOverdue now)).length : ℕ) : ℚ) := by
        exact_mod_cast hleN
      have hdiv1 : ((tasks.filter isOnTime).length : ℚ) /
          (((tasks.filter isOnTime).length + (tasks.filter isLate).length +
            (tasks.filter (isOverdue now)).length : ℕ) : ℚ) ≤ 1 :=
        (div_le_one hposq).2 hle
      have hdiv0 : (0 : ℚ) ≤ ((tasks.filter isOnTime).length : ℚ) /
          (((tasks.filter isOnTime).length + (tasks.filter isLate).length +
            (tasks.filter (isOverdue now)).length : ℕ) : ℚ) := by positivity
      exact round_bounds (by linarith) (by linarith)

/-- Witness for C4: the formula branch applied to the four-task list
with denominator 4. -/
theorem computeConsistencyScore_spec_witness :
    computeConsistencyScore fourTasks 0 =
      round ((((fourTasks.filter isOnTime).length : ℚ) / ((4 : ℕ) : ℚ)) * 100) :=
  (computeConsistencyScore_spec fourTasks 0).2.2.1 4 (by decide) (by decide)

/-- C5: `computeTimeHealth` of a completed task is 100 when completed on
or before the deadline and 0 otherwise; of a pending task it is 0 when
`deadline ≤ createdAt` and otherwise the rounded clamp to [0, 100] of
the remaining-time fraction times 100; the result always lies in
[0, 100]; completion exactly at the deadline gives 100, one millisecond
late gives 0, and the halfway point gives 50. -/
theorem computeTimeHealth_spec (t : Task) (now : Int) :
    (t.status = .COMPLETED →
      ((∃ c, t.completedAt = some c ∧ c ≤ t.deadline) → computeTimeHealth t now = 100) ∧
      ((t.completedAt = none ∨ ∃ c, t.completedAt = some c ∧ t.deadline < c) →
        computeTimeHealth t now = 0)) ∧
    (t.status = .PENDING → t.deadline ≤ t.createdAt → computeTimeHealth t now = 0) ∧
    (t.status = .PENDING → t.createdAt < t.deadline →
      computeTimeHealth t now =
        round (max 0 (min 100 (((t.deadline : ℚ) - (now : ℚ)) /
          ((t.deadline : ℚ) - (t.createdAt : ℚ)) * 100)))) ∧
    (0 ≤ computeTimeHealth t now ∧ computeTimeHealth t now ≤ 100) ∧
    computeTimeHealth onTimeDoneTask 99 = 100 ∧
    computeTimeHealth lateDoneTask 99 = 0 ∧
    computeTimeHealth halfwayTask 500 = 50 := by
  have hhalf : computeTimeHealth halfwayTask 500 = 50 := by
    have hne : halfwayTask.status ≠ .COMPLETED := by decide
    rw [computeTimeHealth, if_neg hne]
    norm_num [halfwayTask, mkTask, round_eq]
  refine ⟨fun h => ⟨fun hc => ?_, fun hc => ?_⟩, fun hp hdeg => ?_, fun hp hspan => ?_, ?_,
    by decide, by decide, hhalf⟩
  · rcases hc with ⟨c, hc, hle⟩
    rw [computeTimeHealth, if_pos h, hc]
    simp [hle]
  · rcases hc with hc | ⟨c, hc, hlt⟩
    · rw [computeTimeHealth, if_pos h, hc]
    · rw [computeTimeHealth, if_pos h, hc]
      simp [not_le.2 hlt]
  · have hne : t.status ≠ .COMPLETED := by rw [hp]; decide
    rw [computeTimeHealth, if_neg hne, if_pos (by omega : t.deadline - t.createdAt ≤ 0)]
  · have hne : t.status ≠ .COMPLETED := by rw [hp]; decide
    rw [computeTimeHealth, if_neg hne,
      if_neg (by omega : ¬t.deadline - t.createdAt ≤ 0)]
    rw [Int.cast_sub]
  · rw [computeTimeHealth]
    split
    · split
      · split <;> norm_num
      · norm_num
    · dsimp only
      split
      · norm_num
      · exact round_bounds (le_max_left _ _) (max_le (by norm_num) (min_le_left _ _))

/-- Witness for C5: the pending clamp branch applied to the halfway
task. -/
theorem computeTimeHealth_spec_witness :
    computeTimeHealth halfwayTask 500 =
      round (max 0 (min 100 (((halfwayTask.deadline : ℚ) - ((500 : Int) : ℚ)) /
        ((halfwayTask.deadline : ℚ) - (halfwayTask.createdAt : ℚ)) * 100))) :=
  (computeTimeHealth_spec halfwayTask 500).2.2.1 (by decide) (by decide)

/-- The reminder id and the deadline id derived from one task id are
distinct. -/
theorem reminder_ne_deadline_id (s : String) :
    s ++ REMINDER_SUFFIX ≠ s ++ DEADLINE_SUFFIX := by
  intro h
  have hd := congrArg String.data h
  rw [String.data_append, String.data_append] at hd
  have h2 := List.append_cancel_left hd
  exact absurd (congrArg String.mk h2) (by decide)

/-- Unfolded form of `scheduleTaskNotifications` when permission is
granted. -/
theorem scheduleTaskNotifications_granted (task : Task)
    (settings : Option PermissionSettings) (now : Int)
    (h : permissionGranted settings = true) :
    scheduleTaskNotifications task settings now =
      (if now < task.deadline - ONE_HOUR_MS then
        [⟨task.id ++ REMINDER_SUFFIX, task.deadline - ONE_HOUR_MS, false⟩] else []) ++
      (if now < task.deadline then
        [⟨task.id ++ DEADLINE_SUFFIX, task.deadline, true⟩] else []) := by
  unfold scheduleTaskNotifications
  rw [h]
  simp

/-- When permission is not granted, `scheduleTaskNotifications` submits
nothing. -/
theorem scheduleTaskNotifications_not_granted (task : Task)
    (settings : Option PermissionSettings) (now : Int)
    (h : permissionGranted settings = false) :
    scheduleTaskNotifications task settings now = [] := by
  unfold scheduleTaskNotifications
  rw [h]
  simp

/-- Every submitted delivery request is the reminder record or the
deadline record. -/
theorem schedule_mem_id (task : Task) (settings : Option PermissionSettings)
    (now : Int) (r : NotificationRequest)
    (hr : r ∈ scheduleTaskNotifications task settings now) :
    r = ⟨task.id ++ REMINDER_SUFFIX, task.deadline - ONE_HOUR_MS, false⟩ ∨
    r = ⟨task.id ++ DEADLINE_SUFFIX, task.deadline, true⟩ := by
  cases hperm : permissionGranted settings
  · rw [scheduleTaskNotifications_not_granted task settings now hperm] at hr
    simp at hr
  · rw [scheduleTaskNotifications_granted task settings now hperm] at hr
    rcases List.mem_append.1 hr with h | h <;> split at h <;> simp at h <;> simp [h]

/-- C6 counterexample: the recomputation body of the memoised projection
reads `Date.now()` internally, so with identical caller-side inputs
(empty cache, same reference token, same collection) its output varies
with the ambient clock: the probe task is scored 60 at internal clock 0
but 110 at internal clock 1800000.  Were `now` supplied by the caller
rather than captured internally, the projection would be a function of
its caller-side inputs alone. -/
theorem selector_internal_clock_cex :
    (runSmartSortedSelector none 0 [clockProbeTask] 0).1 ≠
      (runSmartSortedSelector none 0 [clockProbeTask] 1800000).1 ∧
    (runSmartSortedSelector none 0 [clockProbeTask] 0).1 = [⟨clockProbeTask, 60⟩] ∧
    (runSmartSortedSelector none 0 [clockProbeTask] 1800000).1 =
      [⟨clockProbeTask, 110⟩] := by
  have h0 : (runSmartSortedSelector none 0 [clockProbeTask] 0).1 = [⟨clockProbeTask, 60⟩] := by
    simp [runSmartSortedSelector, selectSmartSortedTasks, annotate, sortDesc, insertDesc,
      score_probe_early]
  have h1 : (runSmartSortedSelector none 0 [clockProbeTask] 1800000).1 =
      [⟨clockProbeTask, 110⟩] := by
    simp [runSmartSortedSelector, selectSmartSortedTasks, annotate, sortDesc, insertDesc,
      score_probe_late]
  refine ⟨?_, h0, h1⟩
  rw [h0, h1]
  norm_num

/-- C6 (amended): the memoised projection returns the cached result,
without recomputing, exactly when the collection reference is unchanged,
and recomputes exactly when the reference changes (or the cache is
empty); on a cache hit the delivered result is independent of the
current clock, because `now` is read internally at recomputation time
rather than supplied by the caller. -/
theorem runSmartSortedSelector_memo (cache : Option SelectorCache) (ref : Nat)
    (tasks : List Task) (clock : Int) :
    (∀ c : SelectorCache, cache = some c → c.ref = ref →
      runSmartSortedSelector cache ref tasks clock = (c.value, c, false)) ∧
    (∀ c : SelectorCache, cache = some c → c.ref ≠ ref →
      runSmartSortedSelector cache ref tasks clock =
        (selectSmartSortedTasks tasks clock, ⟨ref, selectSmartSortedTasks tasks clock⟩, true)) ∧
    (cache = none →
      runSmartSortedSelector cache ref tasks clock =
        (selectSmartSortedTasks tasks clock, ⟨ref, selectSmartSortedTasks tasks clock⟩, true)) ∧
    (∀ (c : SelectorCache) (clock2 : Int), c.ref = ref →
      (runSmartSortedSelector (some c) ref tasks clock).1 =
        (runSmartSortedSelector (some c) ref tasks clock2).1) := by
  refine ⟨fun c hc hr => ?_, fun c hc hr => ?_, fun hc => ?_, fun c clock2 hr => ?_⟩
  · subst hc
    simp [runSmartSortedSelector, hr]
  · subst hc
    simp [runSmartSortedSelector, hr]
  · subst hc
    simp [runSmartSortedSelector]
  · simp [runSmartSortedSelector, hr]

/-- Witness for C6 (amended): a cache hit on reference token 0 returns
the cached value without recomputation. -/
theorem runSmartSortedSelector_memo_witness :
    runSmartSortedSelector (some ⟨0, []⟩) 0 [] 5 = ([], ⟨0, []⟩, false) :=
  (runSmartSortedSelector_memo (some ⟨0, []⟩) 0 [] 5).1 ⟨0, []⟩ rfl rfl

/-- C7: a delivery request is submitted for a timer exactly when
permission is granted and that timer fire instant (deadline minus one
hour for the reminder, the deadline itself for the deadline alert) is
strictly in the future; a denied permission makes the whole call a
no-op, a past timer is silently skipped, and a task whose deadline has
passed yields zero requests. -/
theorem scheduleTaskNotifications_spec (task : Task)
    (settings : Option PermissionSettings) (now : Int) :
    ((∃ r ∈ scheduleTaskNotifications task settings now,
        r.id = task.id ++ REMINDER_SUFFIX) ↔
      permissionGranted settings = true ∧ now < task.deadline - ONE_HOUR_MS) ∧
    ((∃ r ∈ scheduleTaskNotifications task settings now,
        r.id = task.id ++ DEADLINE_SUFFIX) ↔
      permissionGranted settings = true ∧ now < task.deadline) ∧
    (permissionGranted settings = false →
      scheduleTaskNotifications task settings now = []) ∧
    (task.deadline ≤ now → scheduleTaskNotifications task settings now = []) := by
  cases hperm : permissionGranted settings
  · rw [scheduleTaskNotifications_not_granted task settings now hperm]
    simp [hperm]
  · rw [scheduleTaskNotifications_granted task settings now hperm]
    refine ⟨?_, ?_, by simp [hperm], fun hpast => ?_⟩
    · by_cases h1 : now < task.deadline - ONE_HOUR_MS <;>
        by_cases h2 : now < task.deadline <;>
          simp [h1, h2, reminder_ne_deadline_id, (reminder_ne_deadline_id task.id).symm]
    · by_cases h1 : now < task.deadline - ONE_HOUR_MS <;>
        by_cases h2 : now < task.deadline <;>
          simp [h1, h2, reminder_ne_deadline_id, (reminder_ne_deadline_id task.id).symm]
    · have h1 : ¬now < task.deadline - ONE_HOUR_MS := by
        norm_num [ONE_HOUR_MS]
        omega
      have h2 : ¬now < task.deadline := by omega
      simp [h1, h2]

/-- Witness for C7: a granted permission but a past deadline produces
zero delivery requests. -/
theorem scheduleTaskNotifications_spec_witness :
    scheduleTaskNotifications pastDeadlineTask (some ⟨1⟩) 0 = [] :=
  (scheduleTaskNotifications_spec pastDeadlineTask (some ⟨1⟩) 0).2.2.2 (by decide)

/-- C8: every submitted request is keyed by one of the two deterministic
ids; the reminder request fires at `deadline - 1h` without the
allow-while-idle flag, the deadline request fires at `deadline` with the
flag, and the flag characterises the deadline request. -/
theorem scheduleTaskNotifications_requests (task : Task)
    (settings : Option PermissionSettings) (now : Int) (r : NotificationRequest)
    (hr : r ∈ scheduleTaskNotifications task settings now) :
    (r.id = task.id ++ REMINDER_SUFFIX ∨ r.id = task.id ++ DEADLINE_SUFFIX) ∧
    (r.id = task.id ++ REMINDER_SUFFIX →
      r.timestamp = task.deadline - ONE_HOUR_MS ∧ r.allowWhileIdle = false) ∧
    (r.id = task.id ++ DEADLINE_SUFFIX →
      r.timestamp = task.deadline ∧ r.allowWhileIdle = true) ∧
    (r.allowWhileIdle = true ↔ r.id = task.id ++ DEADLINE_SUFFIX) := by
  rcases schedule_mem_id task settings now r hr with h | h <;> subst h
  · exact ⟨Or.inl rfl, fun _ => ⟨rfl, rfl⟩,
      fun hid => absurd hid (reminder_ne_deadline_id task.id),
      iff_of_false (by simp) (reminder_ne_deadline_id task.id)⟩
  · exact ⟨Or.inr rfl, fun hid => absurd hid.symm (reminder_ne_deadline_id task.id),
      fun _ => ⟨rfl, rfl⟩, iff_of_true rfl rfl⟩

/-- Witness for C8: the reminder request of the demo task is among the
submitted requests and is keyed by one of the two ids. -/
theorem scheduleTaskNotifications_requests_witness :
    (⟨scheduleDemoTask.id ++ REMINDER_SUFFIX, scheduleDemoTask.deadline - ONE_HOUR_MS,
        false⟩ : NotificationRequest).id = scheduleDemoTask.id ++ REMINDER_SUFFIX ∨
    (⟨scheduleDemoTask.id ++ REMINDER_SUFFIX, scheduleDemoTask.deadline - ONE_HOUR_MS,
        false⟩ : NotificationRequest).id = scheduleDemoTask.id ++ DEADLINE_SUFFIX :=
  (scheduleTaskNotifications_requests scheduleDemoTask (some ⟨1⟩) 0
    ⟨scheduleDemoTask.id ++ REMINDER_SUFFIX, scheduleDemoTask.deadline - ONE_HOUR_MS, false⟩
    (by decide)).1

/-- C9: `cancelTaskNotifications` unconditionally requests cancellation
of exactly the two deterministic ids — the same ids the scheduler
derives — and cancelling on a delivery-service state containing neither
id leaves the state unchanged (a no-op, never an error). -/
theorem cancelTaskNotifications_spec (taskId : String) :
    cancelTaskNotifications taskId =
      [taskId ++ REMINDER_SUFFIX, taskId ++ DEADLINE_SUFFIX] ∧
    (∀ (task : Task) (settings : Option PermissionSettings) (now : Int)
        (r : NotificationRequest), r ∈ scheduleTaskNotifications task settings now →
      r.id ∈ cancelTaskNotifications task.id) ∧
    (∀ existing : List String, taskId ++ REMINDER_SUFFIX ∉ existing →
      taskId ++ DEADLINE_SUFFIX ∉ existing →
      applyCancellations existing (cancelTaskNotifications taskId) = existing) := by
  refine ⟨rfl, fun task settings now r hr => ?_, fun existing h1 h2 => ?_⟩
  · rcases schedule_mem_id task settings now r hr with h | h <;> subst h <;>
      simp [cancelTaskNotifications]
  · rw [applyCancellations, List.filter_eq_self]
    intro e he
    simp only [cancelTaskNotifications, List.contains_cons, List.contains_nil,
      Bool.or_false, Bool.not_eq_true', Bool.or_eq_false_iff, beq_eq_false_iff_ne, ne_eq]
    constructor
    · intro heq
      exact h1 (heq ▸ he)
    · intro heq
      exact h2 (heq ▸ he)

/-- Witness for C9: cancelling the two ids of task id t9 against a
state containing neither leaves the state unchanged. -/
theorem cancelTaskNotifications_spec_witness :
    applyCancellations [DEADLINE_SUFFIX] (cancelTaskNotifications ("t9")) =
      [DEADLINE_SUFFIX] :=
  (cancelTaskNotifications_spec ("t9")).2.2 [DEADLINE_SUFFIX] (by decide) (by decide)

end Taskmaster
